import Mathlib

/-!
Verification of the mjfeed content pipeline (RSS → teaser/hashtag generation →
human review → Mastodon publishing) against its natural-language specification.

The Python source is shallowly embedded: pure helpers become Lean functions on
`String`/`List Char`; the SQLModel-backed store becomes an explicit record of
lists; every external effect (the Google generative model, the Mastodon client,
the RSS fetch, wall-clock time) becomes an explicit parameter carrying that
call's outcome, so each code path of the source is a plain function of its
inputs.
-/

/-! ## Python string primitives

Models of the Python `str` operations the pipeline relies on.  Characters are
Unicode code points on both sides; `len`/slicing count code points, matching
`String.length`/`String.take`.  Whitespace is modelled by the ASCII whitespace
set recognised by both Python's `str.strip` and the regex class used in
`rss_monitor._clean_text`.
-/

/-- Whitespace test mirroring Python's notion of whitespace for `str.strip`,
`str.rstrip` and the regex class in `re.sub(r"\s+", " ", text)`, restricted to
the ASCII range (space, tab, newline, carriage return, vertical tab, form
feed). -/
def py_isspace (c : Char) : Bool :=
  c = ' ' || c = '\t' || c = '\n' || c = '\r' || c = '\x0b' || c = '\x0c'

/-- Drop leading whitespace, as in Python's `str.lstrip()`. -/
def ltrim (cs : List Char) : List Char := cs.dropWhile py_isspace

/-- Drop trailing whitespace, as in Python's `str.rstrip()`. -/
def rtrim : List Char → List Char
  | [] => []
  | c :: rest =>
    match rtrim rest with
    | [] => if py_isspace c then [] else [c]
    | r => c :: r

/-- Python's `str.strip()`: drop whitespace at both ends. -/
def py_strip (cs : List Char) : List Char := rtrim (ltrim cs)

/-- Python's `str.strip()` on `String`. -/
def py_strip_str (s : String) : String := String.mk (py_strip s.data)

/-- Python's `str.rstrip()` on `String`. -/
def py_rstrip_str (s : String) : String := String.mk (rtrim s.data)

/-! ## teaser.py: deterministic fallback truncation

Embedding of `_truncate_text`, `_prepare_teaser_source`,
`_summarize_long_article` and `generate_teaser` from `app/teaser.py` on the
code path where the generative model is unavailable (`model is None` /
`summary_model is None`, i.e. `GOOGLE_API_KEY` unset) or the primary call
raised — the two situations in which the source returns
`_truncate_text(prepared_description, max_length)`.

The tunable constants come from `getattr(settings, ..., default)`; `Settings`
in `app/config.py` defines none of the three attributes, so the defaults are
always in force.
-/

/-- `teaser.LONG_ARTICLE_CHAR_THRESHOLD` (default, no settings override). -/
def LONG_ARTICLE_CHAR_THRESHOLD : Nat := 4000

/-- `teaser.SUMMARY_TARGET_LENGTH` (default, no settings override). -/
def SUMMARY_TARGET_LENGTH : Nat := 1200

/-- `teaser.SUMMARY_PROMPT_MAX_CHARS` (default, no settings override). -/
def SUMMARY_PROMPT_MAX_CHARS : Nat := 6000

/-- `teaser._truncate_text(text, limit, add_ellipsis)`: return `text` whole if
it fits, else clip to `limit` code points, strip trailing whitespace from the
clipped prefix, and append `"..."` when `add_ellipsis` is set. -/
def truncate_text (text : String) (limit : Nat) (add_ellipsis : Bool) : String :=
  if text.length ≤ limit then text
  else
    let clipped := py_rstrip_str (text.take limit)
    if add_ellipsis then clipped ++ "..." else clipped

/-- `teaser._summarize_long_article` when `summary_model` is `None`: clip the
description to `SUMMARY_PROMPT_MAX_CHARS` without an ellipsis, then truncate
the clipped text to `SUMMARY_TARGET_LENGTH` with an ellipsis. -/
def summarize_long_article_no_model (description : String) : String :=
  let clipped_description := truncate_text description SUMMARY_PROMPT_MAX_CHARS false
  truncate_text clipped_description SUMMARY_TARGET_LENGTH true

/-- `teaser._prepare_teaser_source` when no summary model is configured:
descriptions at most `LONG_ARTICLE_CHAR_THRESHOLD` long pass through
unchanged, longer ones go through the local summarization fallback. -/
def prepare_teaser_source_no_model (description : String) : String :=
  if description.length ≤ LONG_ARTICLE_CHAR_THRESHOLD then description
  else summarize_long_article_no_model description

/-- `teaser.generate_teaser(description, max_length)` on the deterministic
fallback path (`model is None`, or the `model.generate_content` call raised):
`_truncate_text(prepared_description, max_length)` with the default
`add_ellipsis=True`. -/
def generate_teaser_no_model (description : String) (max_length : Nat) : String :=
  truncate_text (prepare_teaser_source_no_model description) max_length true

/-- Claim C1 (counterexample): the fallback teaser is NOT always
`d[:maxLength] + "..."` for long descriptions — `_truncate_text` strips
trailing whitespace from the clipped prefix first.  At `d = "ab cd"`,
`maxLength = 3` the code yields `"ab..."` while the claim demands
`"ab ..."`. -/
theorem c1_counterexample :
    generate_teaser_no_model "ab cd" 3 ≠ String.take "ab cd" 3 ++ "..." := by
  decide

/-- Claim C1 (amended): for descriptions no longer than the 4000-character
long-article threshold, the deterministic fallback returns the description
unchanged when it fits `maxLength`, and otherwise returns the clipped prefix
with its trailing whitespace stripped, followed by `"..."`; descriptions over
the threshold are first locally summarized (clip to 6000, truncate to 1200
with ellipsis) before the `maxLength` truncation applies. -/
theorem c1_fallback_truncation (d : String) (max_length : Nat)
    (h : d.length ≤ LONG_ARTICLE_CHAR_THRESHOLD) :
    (d.length ≤ max_length → generate_teaser_no_model d max_length = d) ∧
    (max_length < d.length →
      generate_teaser_no_model d max_length = py_rstrip_str (d.take max_length) ++ "...") := by
  constructor
  · intro hle
    simp [generate_teaser_no_model, prepare_teaser_source_no_model, truncate_text, h, hle]
  · intro hlt
    simp [generate_teaser_no_model, prepare_teaser_source_no_model, truncate_text, h,
      Nat.not_le_of_lt hlt]

/-- Claim C1 witness: the amended fallback law evaluated at
`d = "hello, world"`, `maxLength = 5`. -/
theorem c1_fallback_truncation_witness :
    generate_teaser_no_model "hello, world" 5 = "hello..." := by
  have h := (c1_fallback_truncation "hello, world" 5 (by decide)).2 (by decide)
  rw [h]
  decide

/-! ## teaser.py / mastodon_client.py: the trending-tag cache

Embedding of `mastodon_client.get_trending_hashtags` and
`teaser.fetch_and_cache_trending_hashtags`.  A trending tag is the Mastodon
API dict, of which the pipeline only ever reads the `name` field.  The cache
(`_trending_hashtags_cache`, `_trending_hashtags_cache_time`) is process-wide
mutable state, embedded as an explicit record threaded through the refresh
function; `datetime.utcnow()` becomes an explicit `now` argument.

`get_trending_hashtags` calls `get_mastodon_client()` OUTSIDE its
`try`/`except` and `mastodon.trending_tags(limit=...)` INSIDE it, so the two
failure modes differ: a client-construction error propagates to the caller,
while a trending-tags API error is swallowed and becomes the return value
`[]`.  `FetchOutcome` enumerates the three outcomes of the external calls.
-/

/-- A Mastodon trending-tag record; only its `name` is consumed by the
pipeline (the `history` field is never read, so it is omitted). -/
structure TrendTag where
  name : String
  deriving DecidableEq, Repr

/-- The module-level trending-hashtag cache of `app/teaser.py`:
`_trending_hashtags_cache` and `_trending_hashtags_cache_time` (`none` models
the initial `None` timestamp; time is abstracted to a `Nat` tick). -/
structure TrendingCache where
  tags : List TrendTag
  time : Option Nat
  deriving DecidableEq, Repr

/-- Outcome of the external Mastodon calls made by
`get_trending_hashtags`: construction of the client raised, the
`trending_tags` API call raised, or the API returned a tag list. -/
inductive FetchOutcome where
  | clientError
  | fetchError
  | success (tags : List TrendTag)
  deriving DecidableEq, Repr

/-- `mastodon_client.get_trending_hashtags(limit)`: an exception from
`get_mastodon_client()` propagates (`Except.error`), an exception from
`mastodon.trending_tags` is caught and returned as the empty list, and a
successful call returns its tags. -/
def get_trending_hashtags (o : FetchOutcome) : Except Unit (List TrendTag) :=
  match o with
  | .clientError => .error ()
  | .fetchError => .ok []
  | .success tags => .ok tags

/-- `teaser.fetch_and_cache_trending_hashtags()`: call
`get_trending_hashtags(limit=20)` inside `try`; on an exception leave both
cache globals untouched and return `[]`, otherwise overwrite the cached list
and timestamp with the returned value and `utcnow()` and return it. -/
def fetch_and_cache_trending_hashtags (o : FetchOutcome) (cache : TrendingCache)
    (now : Nat) : TrendingCache × List TrendTag :=
  match get_trending_hashtags o with
  | .error _ => (cache, [])
  | .ok trending => (⟨trending, some now⟩, trending)

/-- Claim C2 (counterexample): a failure of the external trending-tag fetch
does NOT leave the cache untouched.  `get_trending_hashtags` catches the
exception of the `trending_tags` API call and returns `[]`, so the refresh
overwrites a previously cached non-empty list (timestamp 0) with the empty
list and a fresh timestamp. -/
theorem c2_counterexample :
    (fetch_and_cache_trending_hashtags .fetchError ⟨[⟨"Climate"⟩], some 0⟩ 5).1 ≠
      (⟨[⟨"Climate"⟩], some 0⟩ : TrendingCache) := by
  decide

/-- Claim C2 (amended): only an error raised while constructing the Mastodon
client leaves the cached list and timestamp unchanged (the refresh then
returns `[]`); a failure of the trending-tags API call itself is swallowed by
`get_trending_hashtags` and cached as an empty list with a fresh timestamp,
indistinguishable from a successful empty fetch, and a successful fetch —
empty or not — replaces the cached list and timestamp with what it fetched
and returns it. -/
theorem c2_cache_refresh (o : FetchOutcome) (cache : TrendingCache) (now : Nat) :
    (o = .clientError →
      fetch_and_cache_trending_hashtags o cache now = (cache, [])) ∧
    (o = .fetchError →
      fetch_and_cache_trending_hashtags o cache now = (⟨[], some now⟩, [])) ∧
    (∀ tags, o = .success tags →
      fetch_and_cache_trending_hashtags o cache now = (⟨tags, some now⟩, tags)) := by
  refine ⟨?_, ?_, ?_⟩ <;> intro h
  · subst h; rfl
  · subst h; rfl
  · intro h2; subst h2; rfl

/-- Claim C2 witness: the amended refresh law evaluated at a successful empty
fetch over a non-empty prior cache. -/
theorem c2_cache_refresh_witness :
    fetch_and_cache_trending_hashtags (.success []) ⟨[⟨"Climate"⟩], some 0⟩ 9 =
      (⟨[], some 9⟩, []) :=
  (c2_cache_refresh (.success []) ⟨[⟨"Climate"⟩], some 0⟩ 9).2.2 [] rfl

/-! ## rss_monitor.py: the text normalizer `_clean_text`

`_clean_text` runs, in order:

1. `BeautifulSoup(raw_html, "html.parser").get_text(separator=" ", strip=True)`
   — the `html.parser` tokenizer treats `<` as markup only when followed by a
   tag-opening character (a letter, `/`, `!` or `?`), decodes character
   entities occurring in text nodes, strips each text segment and joins the
   non-empty segments with a single space;
2. `html.unescape(text)` — a second entity-decoding pass over the result;
3. `re.sub(r"\s+", " ", text)` — collapse every whitespace run to one space;
4. `.strip()`.

The embedding models the entity table by its standard named core
(`&amp;` `&lt;` `&gt;` `&quot;`, semicolon-terminated), which is the part the
feed content exercises; both the parser pass and the `unescape` pass decode
single-pass, left to right, exactly as the Python libraries do.
-/

/-- Characters that open a tag after `<` for Python's `html.parser`
tokenizer: an ASCII letter (start tag), `/` (end tag), `!` (declaration or
comment) or `?` (processing instruction).  A `<` followed by anything else is
ordinary text. -/
def tag_start_char (c : Char) : Bool :=
  c.isAlpha || c = '/' || c = '!' || c = '?'

/-- One left-to-right entity-decoding pass over a character list, as
performed both by the `html.parser` tokenizer on text nodes and by
`html.unescape`: each `&amp;`/`&lt;`/`&gt;`/`&quot;` becomes its character
and scanning resumes after it (the produced character is not rescanned); an
`&` not opening a known entity stays literal. -/
def decode_entities : List Char → List Char
  | [] => []
  | '&' :: 'a' :: 'm' :: 'p' :: ';' :: r => '&' :: decode_entities r
  | '&' :: 'l' :: 't' :: ';' :: r => '<' :: decode_entities r
  | '&' :: 'g' :: 't' :: ';' :: r => '>' :: decode_entities r
  | '&' :: 'q' :: 'u' :: 'o' :: 't' :: ';' :: r => '"' :: decode_entities r
  | c :: rest => c :: decode_entities rest

/-- Tokenize raw markup into its text segments, dropping tag spans, as
`html.parser` does for `get_text`: outside a tag (`inTag = false`) a `<`
followed by a tag-opening character closes the current text segment and
enters tag state; inside a tag everything through the next `>` is consumed.
`cur` accumulates the current segment in reverse. -/
def bs_segments : List Char → Bool → List Char → List (List Char)
  | [], _, cur => [cur.reverse]
  | c :: rest, true, cur =>
    if c = '>' then bs_segments rest false [] else bs_segments rest true cur
  | c :: rest, false, cur =>
    if c = '<' && (match rest with | d :: _ => tag_start_char d | [] => false)
    then cur.reverse :: bs_segments rest true []
    else bs_segments rest false (c :: cur)

/-- Join text segments with a single space, as `get_text(separator=" ")`
does for the segments that survive `strip=True`. -/
def join_with_space : List (List Char) → List Char
  | [] => []
  | [s] => s
  | s :: ss => s ++ ' ' :: join_with_space ss

/-- `BeautifulSoup(raw, "html.parser").get_text(separator=" ", strip=True)`:
split the raw markup into text segments, decode entities in each (the parser
hands decoded data to the tree), strip each segment, drop the empty ones and
join with single spaces. -/
def bs_get_text (cs : List Char) : List Char :=
  let segments := (bs_segments cs false []).map (fun seg => py_strip (decode_entities seg))
  join_with_space (segments.filter (fun seg => seg ≠ []))

/-- Collapse every maximal run of whitespace to a single `' '`, as
`re.sub(r"\s+", " ", text)` does. -/
def collapse_ws : List Char → List Char
  | [] => []
  | c :: rest =>
    if py_isspace c then
      match rest with
      | [] => [' ']
      | d :: _ => if py_isspace d then collapse_ws rest else ' ' :: collapse_ws rest
    else c :: collapse_ws rest

/-- `rss_monitor._clean_text(raw_html)`: empty (falsy) input short-circuits
to `""`; otherwise strip markup via `get_text`, run `html.unescape` over the
result, collapse whitespace runs and strip the ends. -/
def clean_text (raw_html : String) : String :=
  if raw_html = "" then ""
  else
    let text1 := bs_get_text raw_html.data
    let text2 := decode_entities text1
    let text3 := collapse_ws text2
    String.mk (py_strip text3)

example : clean_text " <p>Hello &amp;  world</p> " = "Hello & world" := by decide
example : clean_text "&lt;b&gt;hi&lt;/b&gt;" = "<b>hi</b>" := by decide
example : clean_text "<b>hi</b>" = "hi" := by decide
example : clean_text "a &lt; b" = "a < b" := by decide
example : clean_text "a < b" = "a < b" := by decide

/-! Supporting lemmas about the whitespace machinery of `_clean_text`, used to
settle the idempotence claim. -/

lemma bs_segments_no_lt (cs : List Char) (acc : List Char) (h : '<' ∉ cs) :
    bs_segments cs false acc = [acc.reverse ++ cs] := by
  induction cs generalizing acc with
  | nil => simp [bs_segments]
  | cons c rest ih =>
    have hc : c ≠ '<' := fun hx => h (hx ▸ List.mem_cons_self c rest)
    have hr : '<' ∉ rest := fun hx => h (List.mem_cons_of_mem c hx)
    simp [bs_segments, hc, ih (c :: acc) hr]

lemma decode_entities_no_amp (cs : List Char) (h : '&' ∉ cs) :
    decode_entities cs = cs := by
  induction cs with
  | nil => rfl
  | cons c rest ih =>
    have hc : c ≠ '&' := fun hx => h (hx ▸ List.mem_cons_self c rest)
    have hr : '&' ∉ rest := fun hx => h (List.mem_cons_of_mem c hx)
    simp [decode_entities, hc, ih hr]

lemma mem_rtrim {c : Char} : ∀ {cs : List Char}, c ∈ rtrim cs → c ∈ cs := by
  intro cs
  induction cs with
  | nil => simp [rtrim]
  | cons d rest ih =>
    intro hmem
    rw [rtrim] at hmem
    rcases hr : rtrim rest with _ | ⟨x, xs⟩
    · rw [hr] at hmem
      by_cases hd : py_isspace d
      · simp [hd] at hmem
      · simp [hd] at hmem
        simp [hmem]
    · rw [hr] at hmem
      rcases List.mem_cons.mp hmem with h1 | h2
      · simp [h1]
      · exact List.mem_cons_of_mem d (ih (hr ▸ h2))

lemma mem_ltrim {c : Char} {cs : List Char} (h : c ∈ ltrim cs) : c ∈ cs :=
  (List.dropWhile_sublist py_isspace).mem h

lemma mem_py_strip {c : Char} {cs : List Char} (h : c ∈ py_strip cs) : c ∈ cs :=
  mem_ltrim (mem_rtrim h)

lemma collapse_ws_single (c : Char) :
    collapse_ws [c] = if py_isspace c then [' '] else [c] := by
  simp [collapse_ws]

lemma collapse_ws_cons2 (c d : Char) (r : List Char) :
    collapse_ws (c :: d :: r) =
      if py_isspace c then
        (if py_isspace d then collapse_ws (d :: r) else ' ' :: collapse_ws (d :: r))
      else c :: collapse_ws (d :: r) := by
  rw [collapse_ws]

lemma mem_collapse_ws {c : Char} : ∀ {cs : List Char}, c ∈ collapse_ws cs → c ∈ cs ∨ c = ' ' := by
  intro cs
  induction cs with
  | nil => simp [collapse_ws]
  | cons d rest ih =>
    intro hmem
    rcases rest with _ | ⟨e, r⟩
    · rw [collapse_ws_single] at hmem
      by_cases hd : py_isspace d
      · simp [hd] at hmem
        right; exact hmem
      · simp [hd] at hmem
        left; simp [hmem]
    · rw [collapse_ws_cons2] at hmem
      by_cases hd : py_isspace d
      · by_cases he : py_isspace e
        · simp [hd, he] at hmem
          rcases ih hmem with h1 | h2
          · exact Or.inl (List.mem_cons_of_mem d h1)
          · exact Or.inr h2
        · simp [hd, he] at hmem
          rcases hmem with h1 | h2
          · exact Or.inr h1
          · rcases ih h2 with h3 | h4
            · exact Or.inl (List.mem_cons_of_mem d h3)
            · exact Or.inr h4
      · simp [hd] at hmem
        rcases hmem with h1 | h2
        · exact Or.inl (by simp [h1])
        · rcases ih h2 with h3 | h4
          · exact Or.inl (List.mem_cons_of_mem d h3)
          · exact Or.inr h4

/-- Canonical whitespace form: every whitespace character is a plain space
and no two spaces are adjacent.  This is the shape `collapse_ws` produces and
on which it is the identity. -/
def canon_ws : List Char → Bool
  | [] => true
  | [c] => !py_isspace c || c = ' '
  | c :: d :: rest => (!py_isspace c || (c = ' ' && !py_isspace d)) && canon_ws (d :: rest)

lemma canon_ws_single (c : Char) : canon_ws [c] = (!py_isspace c || c = ' ') := rfl

lemma canon_ws_cons2 (c d : Char) (r : List Char) :
    canon_ws (c :: d :: r) =
      ((!py_isspace c || (c = ' ' && !py_isspace d)) && canon_ws (d :: r)) := rfl

lemma canon_ws_tail {c : Char} {t : List Char} (h : canon_ws (c :: t) = true) :
    canon_ws t = true := by
  rcases t with _ | ⟨d, r⟩
  · rfl
  · rw [canon_ws_cons2] at h
    exact (Bool.and_eq_true_iff.mp h).2

lemma canon_ws_cons_not_space {c : Char} {t : List Char} (hc : py_isspace c = false)
    (ht : canon_ws t = true) : canon_ws (c :: t) = true := by
  rcases t with _ | ⟨d, r⟩
  · simp [canon_ws_single, hc]
  · simp [canon_ws_cons2, hc, ht]

lemma canon_ws_cons_space {t : List Char} (ht : canon_ws t = true)
    (hshape : t = [] ∨ ∃ d r, t = d :: r ∧ py_isspace d = false) :
    canon_ws (' ' :: t) = true := by
  rcases hshape with h1 | ⟨d, r, h2, hd⟩
  · subst h1; decide
  · subst h2
    simp [canon_ws_cons2, hd]
    exact ht

lemma collapse_ws_nil : collapse_ws [] = [] := rfl

lemma collapse_ws_head_not_space (d : Char) (r : List Char) (hd : py_isspace d = false) :
    collapse_ws (d :: r) = d :: collapse_ws r := by
  rcases r with _ | ⟨e, r2⟩
  · simp [collapse_ws_single, collapse_ws_nil, hd]
  · simp [collapse_ws_cons2, hd]

lemma collapse_ws_canon : ∀ cs : List Char, canon_ws (collapse_ws cs) = true := by
  intro cs
  induction cs with
  | nil => rfl
  | cons c rest ih =>
    rcases rest with _ | ⟨d, r⟩
    · rw [collapse_ws_single]
      by_cases hc : py_isspace c
      · simp [hc]; decide
      · simp [hc, canon_ws_single]
    · rw [collapse_ws_cons2]
      by_cases hc : py_isspace c
      · by_cases hd : py_isspace d
        · simp [hc, hd]
          exact ih
        · simp [hc, hd]
          refine canon_ws_cons_space ih (Or.inr ?_)
          exact ⟨d, collapse_ws r, collapse_ws_head_not_space d r (by simp [hd]), by simp [hd]⟩
      · simp [hc]
        exact canon_ws_cons_not_space (by simp [hc]) ih

lemma collapse_ws_of_canon : ∀ cs : List Char, canon_ws cs = true → collapse_ws cs = cs := by
  intro cs
  induction cs with
  | nil => intro _; rfl
  | cons c rest ih =>
    intro h
    rcases rest with _ | ⟨d, r⟩
    · rw [collapse_ws_single]
      rw [canon_ws_single] at h
      by_cases hc : py_isspace c
      · simp [hc] at h
        simp [hc, h]
      · simp [hc]
    · rw [collapse_ws_cons2]
      rw [canon_ws_cons2] at h
      rcases Bool.and_eq_true_iff.mp h with ⟨h1, h2⟩
      by_cases hc : py_isspace c
      · simp [hc] at h1
        rcases h1 with ⟨hce, hd⟩
        simp [hc, hd, hce, ih h2]
      · simp [hc, ih h2]

lemma canon_ws_ltrim : ∀ cs : List Char, canon_ws cs = true → canon_ws (ltrim cs) = true := by
  intro cs
  induction cs with
  | nil => intro _; rfl
  | cons c rest ih =>
    intro h
    by_cases hc : py_isspace c
    · rw [ltrim, List.dropWhile_cons_of_pos hc]
      exact ih (canon_ws_tail h)
    · rw [ltrim, List.dropWhile_cons_of_neg hc]
      exact h

lemma rtrim_shape (c : Char) (t : List Char) :
    rtrim (c :: t) = [] ∨ ∃ r, rtrim (c :: t) = c :: r := by
  rw [rtrim]
  rcases rtrim t with _ | ⟨x, xs⟩
  · by_cases hc : py_isspace c
    · left; simp [hc]
    · right; exact ⟨[], by simp [hc]⟩
  · right; exact ⟨x :: xs, rfl⟩

lemma canon_ws_rtrim : ∀ cs : List Char, canon_ws cs = true → canon_ws (rtrim cs) = true := by
  intro cs
  induction cs with
  | nil => intro _; rfl
  | cons c rest ih =>
    intro h
    rw [rtrim]
    rcases hr : rtrim rest with _ | ⟨x, xs⟩
    · by_cases hc : py_isspace c
      · rw [if_pos hc]; rfl
      · simp only [hc, Bool.false_eq_true, if_false]
        simp [canon_ws_single, hc]
    · simp only []
      have hcanr : canon_ws (x :: xs) = true := hr ▸ ih (canon_ws_tail h)
      by_cases hc : py_isspace c
      · rcases rest with _ | ⟨e, rest2⟩
        · simp [rtrim] at hr
        · rw [canon_ws_cons2] at h
          rcases Bool.and_eq_true_iff.mp h with ⟨h1, _⟩
          simp [hc] at h1
          rcases h1 with ⟨hce, he⟩
          rcases rtrim_shape e rest2 with hsh | ⟨r2, hsh⟩
          · rw [hsh] at hr; exact absurd hr (by simp)
          · rw [hsh] at hr
            have hx : x = e := (List.cons_eq_cons.mp hr).1.symm
            subst hce
            exact canon_ws_cons_space hcanr (Or.inr ⟨x, xs, rfl, hx ▸ (by simp [he])⟩)
      · exact canon_ws_cons_not_space (by simp [hc]) hcanr

lemma rtrim_idem : ∀ cs : List Char, rtrim (rtrim cs) = rtrim cs := by
  intro cs
  induction cs with
  | nil => rfl
  | cons c rest ih =>
    rw [rtrim]
    rcases hr : rtrim rest with _ | ⟨x, xs⟩
    · by_cases hc : py_isspace c
      · simp [hc, rtrim]
      · simp only [hc, Bool.false_eq_true, if_false]
        simp [rtrim, hc]
    · simp only []
      have hxs : rtrim (x :: xs) = x :: xs := by
        have := ih
        rw [hr] at this
        exact this
      rw [rtrim, hxs]

lemma ltrim_of_head_not_space {d : Char} {r : List Char} (hd : py_isspace d = false) :
    ltrim (d :: r) = d :: r := by
  rw [ltrim, List.dropWhile_cons_of_neg (by simp [hd])]

lemma ltrim_head_not_space : ∀ (cs : List Char) {d : Char} {r : List Char},
    ltrim cs = d :: r → py_isspace d = false := by
  intro cs
  induction cs with
  | nil => intro d r h; simp [ltrim] at h
  | cons c rest ih =>
    intro d r h
    by_cases hc : py_isspace c
    · rw [ltrim, List.dropWhile_cons_of_pos hc] at h
      exact ih h
    · rw [ltrim, List.dropWhile_cons_of_neg hc] at h
      have : c = d := (List.cons.injEq _ _ _ _ ▸ h).1
      exact this ▸ eq_false_of_ne_true (by simp [hc])

lemma py_strip_idem (cs : List Char) : py_strip (py_strip cs) = py_strip cs := by
  rw [py_strip, py_strip]
  rcases hl : ltrim cs with _ | ⟨d, r⟩
  · rfl
  · have hd : py_isspace d = false := ltrim_head_not_space cs hl
    rcases rtrim_shape d r with hsh | ⟨r2, hsh⟩
    · rw [hsh]; rfl
    · rw [hsh, ltrim_of_head_not_space hd, ← hsh, rtrim_idem]

lemma bs_get_text_plain (cs : List Char) (h1 : '<' ∉ cs) (h2 : '&' ∉ cs) :
    bs_get_text cs = py_strip cs := by
  rw [bs_get_text, bs_segments_no_lt cs [] h1]
  simp only [List.reverse_nil, List.nil_append, List.map_cons, List.map_nil,
    decode_entities_no_amp cs h2]
  by_cases hps : py_strip cs = []
  · simp [hps, join_with_space]
  · simp [hps, join_with_space]

lemma clean_text_plain (s : String) (h1 : '<' ∉ s.data) (h2 : '&' ∉ s.data) :
    clean_text s = String.mk (py_strip (collapse_ws (py_strip s.data))) := by
  by_cases hs : s = ""
  · subst hs; rfl
  · simp only [clean_text, if_neg hs]
    rw [bs_get_text_plain s.data h1 h2,
      decode_entities_no_amp _ (fun hx => h2 (mem_py_strip hx))]

lemma strip_collapse_strip_idem (cs : List Char) :
    py_strip (collapse_ws (py_strip (py_strip (collapse_ws (py_strip cs))))) =
      py_strip (collapse_ws (py_strip cs)) := by
  have hu : canon_ws (collapse_ws (py_strip cs)) = true := collapse_ws_canon _
  have ht : canon_ws (py_strip (collapse_ws (py_strip cs))) = true := by
    rw [py_strip]
    exact canon_ws_rtrim _ (canon_ws_ltrim _ hu)
  rw [py_strip_idem, collapse_ws_of_canon _ ht, py_strip_idem]

/-- Claim C6 (counterexample): the normalizer is NOT idempotent.  Both the
HTML parser and `html.unescape` decode entities, so one pass over
`"&lt;b&gt;hi&lt;/b&gt;"` yields `"<b>hi</b>"`, whose decoded entities form
real markup; a second pass parses that markup and strips it to `"hi"`. -/
theorem c6_counterexample :
    clean_text (clean_text "&lt;b&gt;hi&lt;/b&gt;") ≠
      clean_text "&lt;b&gt;hi&lt;/b&gt;" := by
  decide

/-- Claim C6 (amended): `_clean_text` is idempotent on every string that
contains neither `<` nor `&` — for such input it reduces to
whitespace-collapsing and trimming, which are idempotent; idempotence fails
in general because entities are decoded twice (once by the HTML parser, once
by `html.unescape`), and decoded entities can form tags that a second pass
strips. -/
theorem c6_normalize_idempotent_plain (s : String)
    (h : ∀ c ∈ s.data, c ≠ '<' ∧ c ≠ '&') :
    clean_text (clean_text s) = clean_text s := by
  have h1 : '<' ∉ s.data := fun hx => (h _ hx).1 rfl
  have h2 : '&' ∉ s.data := fun hx => (h _ hx).2 rfl
  have hcs : clean_text s = String.mk (py_strip (collapse_ws (py_strip s.data))) :=
    clean_text_plain s h1 h2
  have hmem : ∀ c ∈ (clean_text s).data, c ∈ s.data ∨ c = ' ' := by
    rw [hcs]
    intro c hc
    rcases mem_collapse_ws (mem_py_strip hc) with hA | hB
    · exact Or.inl (mem_py_strip hA)
    · exact Or.inr hB
  have h1' : '<' ∉ (clean_text s).data := by
    intro hx
    rcases hmem _ hx with hA | hB
    · exact h1 hA
    · exact absurd hB (by decide)
  have h2' : '&' ∉ (clean_text s).data := by
    intro hx
    rcases hmem _ hx with hA | hB
    · exact h2 hA
    · exact absurd hB (by decide)
  rw [clean_text_plain (clean_text s) h1' h2', hcs]
  show String.mk (py_strip (collapse_ws (py_strip
    (py_strip (collapse_ws (py_strip s.data)))))) = _
  rw [strip_collapse_strip_idem]

/-- Claim C6 witness: the amended idempotence law evaluated on a plain string
with irregular whitespace. -/
theorem c6_normalize_idempotent_plain_witness :
    clean_text (clean_text " Hello \t  world ") = clean_text " Hello \t  world " :=
  c6_normalize_idempotent_plain " Hello \t  world " (by decide)

/-! ## teaser.py: trending-hashtag relevance and hashtag assembly

Embedding of `find_relevant_trending_hashtags` and
`generate_hashtags_with_trending`.  The generation-service call inside
`find_relevant_trending_hashtags` is externalized as an
`Option String`: `none` stands for every path on which no usable response
text exists (no `google_api_key` configured, or `model.generate_content`
raised — both end in `return []`), `some r` for a successful response with
text `r`.  Python's `str.lower()` is modelled on the ASCII range by
`String.toLower`, which is where the trending-tag names live. -/

/-- Python's `str.lstrip('#')`: drop every leading `#`. -/
def strip_leading_hashes (s : String) : String :=
  String.mk (s.data.dropWhile (fun c => c = '#'))

/-- Python truthiness of an `Optional[str]`: `None` and `""` are falsy. -/
def py_truthy (o : Option String) : Bool :=
  match o with
  | none => false
  | some s => s ≠ ""

/-- Python's `str.lower()` on one character, for the ASCII range on which the
trending-tag matching operates. -/
def ascii_lower_char (c : Char) : Char :=
  if 65 ≤ c.toNat ∧ c.toNat ≤ 90 then Char.ofNat (c.toNat + 32) else c

/-- Python's `str.lower()` (ASCII model). -/
def str_lower (s : String) : String := String.mk (s.data.map ascii_lower_char)

/-- Python's `str.split(',')`: split at every comma, keeping empty pieces
(so `"".split(',') == [""]`). -/
def split_on_comma : List Char → List (List Char)
  | [] => [[]]
  | ',' :: rest => [] :: split_on_comma rest
  | c :: rest =>
    match split_on_comma rest with
    | [] => [[c]]
    | piece :: pieces => (c :: piece) :: pieces

/-- The `hashtag_names` local of `find_relevant_trending_hashtags`:
`tag.get('name','').lstrip('#')` for every trending tag with a truthy
name. -/
def hashtag_names (trending_hashtags : List TrendTag) : List String :=
  (trending_hashtags.filter (fun t => t.name ≠ "")).map
    (fun t => strip_leading_hashes t.name)

/-- The `suggested_tags` local of `find_relevant_trending_hashtags`: the
model response, stripped and lowercased, split on commas, each piece stripped
of whitespace and leading `#`. -/
def suggested_tags (resp : String) : List String :=
  (split_on_comma (str_lower (py_strip_str resp)).data).map
    (fun t => strip_leading_hashes (py_strip_str (String.mk t)))

/-- `teaser.find_relevant_trending_hashtags(title, description, trending,
max_results)`.  The title and description only shape the prompt, never the
parsing of the response, so they do not appear.  No usable response (no API
key, or the call raised) yields `[]`, as do an empty trending list, an empty
candidate-name list, and a `"none"` or empty reply; otherwise each suggested
tag is matched case-insensitively against the candidate names, the FIRST
matching candidate contributes its original-cased name, and the result is
cut to `max_results`. -/
def find_relevant_trending_hashtags (response : Option String)
    (trending_hashtags : List TrendTag) (max_results : Nat) : List String :=
  match response with
  | none => []
  | some resp =>
    if trending_hashtags = [] then []
    else if hashtag_names trending_hashtags = [] then []
    else if str_lower (py_strip_str resp) = "none" ∨ str_lower (py_strip_str resp) = "" then []
    else
      ((suggested_tags resp).filterMap (fun tag =>
        (hashtag_names trending_hashtags).find?
          (fun name => str_lower name = str_lower tag))).take max_results

/-- The two fixed seed hashtags of `generate_hashtags_with_trending`, plus
the section tag derived by dropping spaces from a truthy section name. -/
def seed_hashtags (sec : Option String) : List String :=
  let hashtags := ["#MotherJones", "#Investigative"]
  if py_truthy sec then
    hashtags ++ ["#" ++ String.mk ((sec.getD "").data.filter (fun c => c ≠ ' '))]
  else hashtags

/-- `teaser.generate_hashtags_with_trending(section, article_title,
article_description, trending_hashtags)`: seed tags (plus section tag), then
— only when title, description and the trending list are all truthy — the
validated relevant trending tags, each rendered with a `#` in front, at most
2 (`max_results=2`).  The `trending_hashtags is None` branch reads the cache;
callers pass the list that read produced. -/
def generate_hashtags_with_trending (response : Option String)
    (sec article_title article_description : Option String)
    (trending_hashtags : List TrendTag) : List String :=
  if py_truthy article_title && py_truthy article_description &&
      trending_hashtags ≠ [] then
    seed_hashtags sec ++
      (find_relevant_trending_hashtags response trending_hashtags 2).map
        (fun tag => "#" ++ tag)
  else seed_hashtags sec

example :
    generate_hashtags_with_trending (some "climate") none (some "T") (some "D")
      [⟨"Climate"⟩] = ["#MotherJones", "#Investigative", "#Climate"] := by decide

example :
    generate_hashtags_with_trending (some "climate, Hallucinated") none (some "T")
      (some "D") [⟨"Climate"⟩] = ["#MotherJones", "#Investigative", "#Climate"] := by decide

lemma find_relevant_mem {response : Option String} {trending : List TrendTag}
    {max_results : Nat} {x : String}
    (hx : x ∈ find_relevant_trending_hashtags response trending max_results) :
    ∃ tag ∈ trending, tag.name ≠ "" ∧ x = strip_leading_hashes tag.name := by
  rcases response with _ | resp
  · simp [find_relevant_trending_hashtags] at hx
  · rw [find_relevant_trending_hashtags] at hx
    split at hx
    · simp at hx
    · split at hx
      · simp at hx
      · split at hx
        · simp at hx
        · have hx2 := List.mem_of_mem_take hx
          rcases List.mem_filterMap.mp hx2 with ⟨tagtext, _, hfind⟩
          have hmem := List.mem_of_find?_eq_some hfind
          rcases List.mem_map.mp hmem with ⟨t, htf, hteq⟩
          rcases List.mem_filter.mp htf with ⟨htmem, htname⟩
          exact ⟨t, htmem, by simpa using htname, hteq.symm⟩

lemma find_relevant_length (response : Option String) (trending : List TrendTag)
    (max_results : Nat) :
    (find_relevant_trending_hashtags response trending max_results).length ≤
      max_results := by
  rcases response with _ | resp
  · simp [find_relevant_trending_hashtags]
  · rw [find_relevant_trending_hashtags]
    split
    · simp
    · split
      · simp
      · split
        · simp
        · exact List.length_take_le _ _

/-- Claim C7: every trending tag appended by hashtag generation comes from
the provided candidate list — it is some candidate's name (leading `#`
stripped, original casing preserved, hence in particular a case-insensitive
member of the candidate set) with a `#` prefix — and at most 2 such tags are
appended after the seed tags; model-suggested tags outside the candidate set
are dropped, e.g. candidates `[{name := "Climate"}]` with model response
`"climate"` yield exactly the extra tag `"#Climate"`. -/
theorem c7_trending_tags_validated (response : Option String)
    (sec article_title article_description : Option String)
    (trending : List TrendTag) :
    (∃ extra : List String,
      generate_hashtags_with_trending response sec article_title
          article_description trending = seed_hashtags sec ++ extra ∧
      extra.length ≤ 2 ∧
      ∀ t ∈ extra, ∃ tag ∈ trending, tag.name ≠ "" ∧
        t = "#" ++ strip_leading_hashes tag.name) ∧
    generate_hashtags_with_trending (some "climate") none (some "T") (some "D")
      [⟨"Climate"⟩] = seed_hashtags none ++ ["#Climate"] := by
  constructor
  · rw [generate_hashtags_with_trending]
    by_cases hcond : (py_truthy article_title && py_truthy article_description &&
        trending ≠ ([] : List TrendTag)) = true
    · rw [if_pos hcond]
      refine ⟨(find_relevant_trending_hashtags response trending 2).map
        (fun tag => "#" ++ tag), rfl, ?_, ?_⟩
      · rw [List.length_map]
        exact find_relevant_length response trending 2
      · intro t ht
        rcases List.mem_map.mp ht with ⟨x, hxmem, hxeq⟩
        rcases find_relevant_mem hxmem with ⟨tag, htag, hname, hxval⟩
        exact ⟨tag, htag, hname, by rw [← hxeq, hxval]⟩
    · rw [if_neg hcond]
      exact ⟨[], by simp, by simp, by simp⟩
  · decide

/-! ## storage.py / main.py: the persisted store and the review state machine

`Article` mirrors the SQLModel table of `app/storage.py`; the autoincrement
primary key becomes an explicit `id : Nat` (every persisted row has one) with
the next key kept in the store record, `datetime` columns become `Nat` ticks,
and the `created_at`/`updated_at` bookkeeping columns — never read by the
pipeline — are dropped.  `ApprovedTeaserExample` keeps the three fields the
pipeline writes; its own primary key and timestamp are only used to order the
few-shot examples for prompt building and are likewise dropped.

The session-backed SQLite database becomes `PipelineDB`: the list of
committed articles (unique `id` and, per the schema, unique `guid`), the
append-only approved-example log, and the autoincrement counter.
`session.get(Article, article_id)` is a primary-key lookup; mutating a fetched
row and committing replaces the row with the same `id`. -/

structure Article where
  id : Nat
  guid : String
  title : String
  link : String
  pub_date : Nat
  description : String
  author : Option String
  ai_teaser : Option String
  article_length : Option Nat
  suggested_hashtags : Option String
  status : String
  visibility : String
  deriving DecidableEq, Repr

structure ApprovedTeaserExample where
  original_article_id : Nat
  original_description : String
  approved_teaser : String
  deriving DecidableEq, Repr

structure PipelineDB where
  articles : List Article
  examples : List ApprovedTeaserExample
  next_id : Nat
  deriving DecidableEq, Repr

/-- `session.get(Article, article_id)`: primary-key point lookup. -/
def db_get_article (db : PipelineDB) (article_id : Nat) : Option Article :=
  db.articles.find? (fun a => a.id = article_id)

/-- Committing a mutation of the row with key `article_id`: replace it, leave
every other row untouched. -/
def set_article (articles : List Article) (article_id : Nat) (a : Article) :
    List Article :=
  articles.map (fun b => if b.id = article_id then a else b)

/-- The `valid_visibilities` list of `main.process_article`. -/
def valid_visibilities : List String := ["public", "unlisted", "private", "direct"]

/-- `main.process_article(article_id, action, edited_teaser, visibility)`.

The FastAPI endpoint looks the article up by primary key ("Article not
found" when absent) and dispatches on `action`; it never inspects
`article.status`.

* `"approve"`: an unknown visibility is rejected before anything is touched;
  otherwise the article's `ai_teaser`, `status` and `visibility` are
  overwritten and a new `ApprovedTeaserExample` (article's id, its
  description, the submitted teaser) is committed together with the article.
* `"discard"`: sets `status` only.
* `"re_summarize"`: overwrites `ai_teaser` with
  `generate_new_teaser(article.description, edited_teaser, session)`; the
  external generation call is the parameter `gen_new_teaser` (description and
  feedback to the produced teaser).  Only the response dict's `message` field
  is modelled.
* anything else: rejected without a change. -/
def process_article (gen_new_teaser : String → String → String) (db : PipelineDB)
    (article_id : Nat) (action edited_teaser visibility : String) :
    PipelineDB × String :=
  match db_get_article db article_id with
  | none => (db, "Article not found")
  | some article =>
    if action = "approve" then
      if visibility ∉ valid_visibilities then
        (db, "Invalid visibility value: " ++ visibility ++
          ". Must be one of [\x27public\x27, \x27unlisted\x27, \x27private\x27, \x27direct\x27]")
      else
        ({ db with
            articles := set_article db.articles article_id
              { article with
                  ai_teaser := some edited_teaser
                  status := "approved"
                  visibility := visibility }
            examples := db.examples ++
              [⟨article.id, article.description, edited_teaser⟩] },
         "Article approved with visibility: " ++ visibility)
    else if action = "discard" then
      ({ db with
          articles := set_article db.articles article_id
            { article with status := "discarded" } },
       "Article discarded")
    else if action = "re_summarize" then
      ({ db with
          articles := set_article db.articles article_id
            { article with
              ai_teaser := some (gen_new_teaser article.description edited_teaser) } },
       "Article re-summarized")
    else (db, "Invalid action")

/-- A concrete stand-in for the external `generate_new_teaser` call, used by
counterexamples and witnesses: it tags the feedback text, so which argument
was passed as feedback is visible in the output. -/
def sample_gen (_description feedback : String) : String := "regen: " ++ feedback

/-- A pending article as the reconciler creates it, used as concrete witness
input. -/
def sample_article : Article :=
  { id := 1, guid := "g-1", title := "T1", link := "http://x/1", pub_date := 0,
    description := "D1", author := none, ai_teaser := some "old teaser",
    article_length := some 2, suggested_hashtags := some "#MotherJones,#Investigative",
    status := "pending", visibility := "private" }

/-- A discarded article, used to exercise actions outside their spec'd source
state. -/
def discarded_article : Article :=
  { sample_article with id := 2, guid := "g-2", status := "discarded" }

example :
    (process_article sample_gen ⟨[sample_article], [], 3⟩ 1 "approve" "t" "sideways").1 =
      ⟨[sample_article], [], 3⟩ := by decide

example :
    (process_article sample_gen ⟨[sample_article], [], 3⟩ 9 "discard" "t" "public").2 =
      "Article not found" := by decide

/-- Claim C3 (counterexample): reviewer actions do NOT respect the claimed
state machine — `process_article` never inspects `article.status`, so an
approve submitted for a `discarded` article mutates it (to `approved`, with
teaser and visibility overwritten and an example appended) instead of
leaving it unchanged. -/
theorem c3_counterexample :
    (process_article sample_gen ⟨[discarded_article], [], 3⟩ 2
        "approve" "new teaser" "public").1 ≠ ⟨[discarded_article], [], 3⟩ := by
  decide

/-- Claim C3 (amended): reviewer actions perform their transition on every
existing article regardless of its current status: approve (with a valid
visibility) overwrites teaser/visibility, sets `approved` and appends an
example from any prior status; discard sets `discarded` from any prior
status; re-summarize regenerates the teaser (status untouched) from any
prior status; and any unknown action, or any action on a missing id, changes
nothing. -/
theorem c3_actions_ignore_status (gen : String → String → String)
    (db : PipelineDB) (article_id : Nat) (teaser vis : String) (article : Article)
    (h : db_get_article db article_id = some article) :
    (vis ∈ valid_visibilities →
      process_article gen db article_id "approve" teaser vis =
        ({ db with
            articles := set_article db.articles article_id
              { article with
                  ai_teaser := some teaser
                  status := "approved"
                  visibility := vis }
            examples := db.examples ++ [⟨article.id, article.description, teaser⟩] },
         "Article approved with visibility: " ++ vis)) ∧
    (process_article gen db article_id "discard" teaser vis =
      ({ db with
          articles := set_article db.articles article_id
            { article with status := "discarded" } },
       "Article discarded")) ∧
    (process_article gen db article_id "re_summarize" teaser vis =
      ({ db with
          articles := set_article db.articles article_id
            { article with
                ai_teaser := some (gen article.description teaser) } },
       "Article re-summarized")) ∧
    (∀ action, action ∉ (["approve", "discard", "re_summarize"] : List String) →
      process_article gen db article_id action teaser vis = (db, "Invalid action")) := by
  refine ⟨?_, ?_, ?_, ?_⟩
  · intro hv
    simp [process_article, h, hv]
  · simp [process_article, h]
  · simp [process_article, h]
  · intro action hact
    simp only [List.mem_cons, List.mem_singleton, not_or] at hact
    rcases hact with ⟨h1, h2, h3, -⟩
    simp [process_article, h, h1, h2, h3]

/-- Claim C3 witness: the amended law evaluated for a discard submitted
against an already-discarded article. -/
theorem c3_actions_ignore_status_witness :
    process_article sample_gen ⟨[discarded_article], [], 3⟩ 2 "discard" "t" "public" =
      (⟨[discarded_article], [], 3⟩, "Article discarded") := by
  have h := (c3_actions_ignore_status sample_gen ⟨[discarded_article], [], 3⟩ 2
    "t" "public" discarded_article (by decide)).2.1
  rw [h]
  decide

/-- Claim C5: approving an existing article with an invalid visibility is
rejected with no change to any record, while approving with a valid
visibility overwrites the article's teaser with the submitted one, sets its
visibility, sets its status to `approved`, and appends — in the same commit —
exactly one `ApprovedTeaserExample` holding the article's description and the
approved teaser. -/
theorem c5_approve_validation (gen : String → String → String)
    (db : PipelineDB) (article_id : Nat) (teaser vis : String) (article : Article)
    (h : db_get_article db article_id = some article) :
    (vis ∉ valid_visibilities →
      process_article gen db article_id "approve" teaser vis =
        (db, "Invalid visibility value: " ++ vis ++
          ". Must be one of [\x27public\x27, \x27unlisted\x27, \x27private\x27, \x27direct\x27]")) ∧
    (vis ∈ valid_visibilities →
      process_article gen db article_id "approve" teaser vis =
        ({ db with
            articles := set_article db.articles article_id
              { article with
                  ai_teaser := some teaser
                  status := "approved"
                  visibility := vis }
            examples := db.examples ++ [⟨article.id, article.description, teaser⟩] },
         "Article approved with visibility: " ++ vis)) := by
  constructor
  · intro hv
    simp [process_article, h, hv]
  · intro hv
    simp [process_article, h, hv]

/-- Claim C5 witness: the approval law evaluated both at the rejected
visibility `"sideways"` (status stays `pending`, store unchanged) and at the
accepted visibility `"public"` (teaser overwritten, one example appended). -/
theorem c5_approve_validation_witness :
    (process_article sample_gen ⟨[sample_article], [], 3⟩ 1 "approve" "edited" "sideways" =
      (⟨[sample_article], [], 3⟩,
        "Invalid visibility value: sideways. Must be one of [\x27public\x27, \x27unlisted\x27, \x27private\x27, \x27direct\x27]")) ∧
    (process_article sample_gen ⟨[sample_article], [], 3⟩ 1 "approve" "edited" "public" =
      (⟨[{ sample_article with
            ai_teaser := some "edited"
            status := "approved"
            visibility := "public" }],
        [⟨1, "D1", "edited"⟩], 3⟩,
        "Article approved with visibility: public")) := by
  constructor
  · have h := (c5_approve_validation sample_gen ⟨[sample_article], [], 3⟩ 1
      "edited" "sideways" sample_article (by decide)).1 (by decide)
    rw [h]
    decide
  · have h := (c5_approve_validation sample_gen ⟨[sample_article], [], 3⟩ 1
      "edited" "public" sample_article (by decide)).2 (by decide)
    rw [h]
    decide

/-- Claim C9 (counterexample): re-summarize does NOT use the article's
persisted teaser as feedback.  With the persisted teaser `"old teaser"` and a
submitted `edited_teaser` of `"edited"`, the code stores
`gen(description, "edited")`, not `gen(description, "old teaser")` as the
claim requires. -/
theorem c9_counterexample :
    (process_article sample_gen ⟨[sample_article], [], 3⟩ 1
        "re_summarize" "edited" "public").1 ≠
      ⟨[{ sample_article with
            ai_teaser := some (sample_gen sample_article.description
              (sample_article.ai_teaser.getD "")) }], [], 3⟩ := by
  decide

/-- Claim C9 (amended): for every existing article, re-summarize replaces the
article's teaser with `generate_new_teaser` applied to the article's original
description and the SUBMITTED edited teaser as feedback (the form field, not
the persisted teaser), and leaves the article's status — and every other
record — unchanged. -/
theorem c9_resummarize_feedback (gen : String → String → String)
    (db : PipelineDB) (article_id : Nat) (teaser vis : String) (article : Article)
    (h : db_get_article db article_id = some article) :
    process_article gen db article_id "re_summarize" teaser vis =
      ({ db with
          articles := set_article db.articles article_id
            { article with
                ai_teaser := some (gen article.description teaser) } },
       "Article re-summarized") ∧
    ({ article with
        ai_teaser := some (gen article.description teaser) }).status = article.status ∧
    (process_article gen db article_id "re_summarize" teaser vis).1.examples =
      db.examples := by
  have hmain : process_article gen db article_id "re_summarize" teaser vis =
      ({ db with
          articles := set_article db.articles article_id
            { article with
                ai_teaser := some (gen article.description teaser) } },
       "Article re-summarized") := by
    simp [process_article, h]
  exact ⟨hmain, rfl, by rw [hmain]⟩

/-- Claim C9 witness: the amended re-summarize law evaluated on a concrete
pending article with a submitted teaser differing from the stored one. -/
theorem c9_resummarize_feedback_witness :
    process_article sample_gen ⟨[sample_article], [], 3⟩ 1 "re_summarize" "edited" "public" =
      (⟨[{ sample_article with ai_teaser := some "regen: edited" }], [], 3⟩,
        "Article re-summarized") := by
  have h := (c9_resummarize_feedback sample_gen ⟨[sample_article], [], 3⟩ 1
    "edited" "public" sample_article (by decide)).1
  rw [h]
  decide

/-- Claim C10: discarding an existing article sets its status to `discarded`
and changes nothing else — every other field of the article keeps its value,
and no `ApprovedTeaserExample` is inserted. -/
theorem c10_discard_frame (gen : String → String → String)
    (db : PipelineDB) (article_id : Nat) (teaser vis : String) (article : Article)
    (h : db_get_article db article_id = some article) :
    process_article gen db article_id "discard" teaser vis =
      ({ db with
          articles := set_article db.articles article_id
            { article with status := "discarded" } },
       "Article discarded") ∧
    ({ article with status := "discarded" }).guid = article.guid ∧
    ({ article with status := "discarded" }).title = article.title ∧
    ({ article with status := "discarded" }).link = article.link ∧
    ({ article with status := "discarded" }).description = article.description ∧
    ({ article with status := "discarded" }).ai_teaser = article.ai_teaser ∧
    ({ article with status := "discarded" }).visibility = article.visibility ∧
    ({ article with status := "discarded" }).suggested_hashtags = article.suggested_hashtags ∧
    (process_article gen db article_id "discard" teaser vis).1.examples = db.examples := by
  have hmain : process_article gen db article_id "discard" teaser vis =
      ({ db with
          articles := set_article db.articles article_id
            { article with status := "discarded" } },
       "Article discarded") := by
    simp [process_article, h]
  exact ⟨hmain, rfl, rfl, rfl, rfl, rfl, rfl, rfl, by rw [hmain]⟩

/-- Claim C10 witness: the discard frame law evaluated on a concrete pending
article. -/
theorem c10_discard_frame_witness :
    process_article sample_gen ⟨[sample_article], [], 3⟩ 1 "discard" "t" "public" =
      (⟨[{ sample_article with status := "discarded" }], [], 3⟩, "Article discarded") := by
  have h := (c10_discard_frame sample_gen ⟨[sample_article], [], 3⟩ 1
    "t" "public" sample_article (by decide)).1
  rw [h]
  decide

/-! ## main.py / mastodon_client.py: the publisher

Embedding of `main.post_approved_articles`.  The `mastodon_client.post_toot`
wrapper returns `True` exactly when `mastodon.status_post` succeeded and
`False` when it raised; that Boolean-valued call (content, visibility →
confirmed success) is the explicit parameter `post_toot`.  The
`generate_hashtags` fallback for articles without stored hashtags performs
its own external calls, so it is the parameter `gen_tags`.  Each loop
iteration mutates and commits only its own article, so the run is a map over
the article rows. -/

/-- The toot text assembled by `post_approved_articles` for one article:
teaser (Python renders a `None` teaser as the string `"None"`), the
read-more line with the article link, the hashtags — the stored
comma-separated string when truthy, otherwise freshly generated — joined by
spaces, and the `" @bullfinch"` recipient mention when visibility is
`direct`. -/
def build_toot_content (gen_tags : Article → List String) (article : Article) : String :=
  let teaser := match article.ai_teaser with
    | some t => t
    | none => "None"
  let hashtags := match article.suggested_hashtags with
    | some s => if s ≠ "" then (split_on_comma s.data).map String.mk else gen_tags article
    | none => gen_tags article
  let content := teaser ++ "\n\nRead more â†’ " ++ article.link ++ "\n\n" ++
    String.intercalate " " hashtags
  if article.visibility = "direct" then content ++ " @bullfinch" else content

/-- `main.post_approved_articles()`: for every article whose status is
`approved`, assemble the toot and call `post_toot`; commit
`status = "posted"` exactly when the call confirmed success, leave the row
untouched otherwise.  Articles in any other status are not looked at. -/
def post_approved_articles (post_toot : String → String → Bool)
    (gen_tags : Article → List String) (db : PipelineDB) : PipelineDB :=
  { db with
      articles := db.articles.map (fun article =>
        if article.status = "approved" then
          if post_toot (build_toot_content gen_tags article) article.visibility
          then { article with status := "posted" }
          else article
        else article) }

/-- An approved article, used as concrete witness input for the publisher. -/
def approved_article : Article :=
  { sample_article with
      id := 4
      guid := "g-4"
      status := "approved"
      ai_teaser := some "T4"
      visibility := "public" }

example :
    (post_approved_articles (fun _ _ => true) (fun _ => []) ⟨[approved_article], [], 5⟩).articles =
      [{ approved_article with status := "posted" }] := by decide

example :
    post_approved_articles (fun _ _ => false) (fun _ => []) ⟨[approved_article], [], 5⟩ =
      ⟨[approved_article], [], 5⟩ := by decide

/-- Claim C8: an approved article processed by the publisher transitions to
`posted` exactly when the external publish call for its assembled toot
reports success; on a failure report the row is left untouched, so its
status remains `approved` and it is picked up again by the next run. -/
theorem c8_publish_success_gates_posted (post_toot : String → String → Bool)
    (gen_tags : Article → List String) (db : PipelineDB) (i : Nat)
    (hi : i < db.articles.length) :
    ∃ hi2 : i < (post_approved_articles post_toot gen_tags db).articles.length,
      (db.articles.get ⟨i, hi⟩).status = "approved" →
        (((post_approved_articles post_toot gen_tags db).articles.get ⟨i, hi2⟩).status =
            "posted" ↔
          post_toot (build_toot_content gen_tags (db.articles.get ⟨i, hi⟩))
            (db.articles.get ⟨i, hi⟩).visibility = true) ∧
        (post_toot (build_toot_content gen_tags (db.articles.get ⟨i, hi⟩))
            (db.articles.get ⟨i, hi⟩).visibility = false →
          (post_approved_articles post_toot gen_tags db).articles.get ⟨i, hi2⟩ =
            db.articles.get ⟨i, hi⟩) := by
  have hlen : (post_approved_articles post_toot gen_tags db).articles.length =
      db.articles.length := by
    simp [post_approved_articles]
  refine ⟨by rw [hlen]; exact hi, ?_⟩
  intro ha
  simp only [List.get_eq_getElem] at ha ⊢
  simp only [post_approved_articles, List.getElem_map]
  simp only [ha, if_pos rfl]
  rcases hp : post_toot (build_toot_content gen_tags db.articles[i])
      db.articles[i].visibility with _ | _
  · simp [ha]
  · simp

/-- Claim C8 witness: the publisher law evaluated for one approved article
under an always-failing publish call — the row stays `approved`. -/
theorem c8_publish_success_gates_posted_witness :
    (post_approved_articles (fun _ _ => false) (fun _ => [])
        ⟨[approved_article], [], 5⟩).articles.get ⟨0, by decide⟩ = approved_article := by
  rcases c8_publish_success_gates_posted (fun _ _ => false) (fun _ => [])
      ⟨[approved_article], [], 5⟩ 0 (by decide) with ⟨hi2, hmain⟩
  exact (hmain (by decide)).2 rfl

/-! ## rss_monitor.py: the feed reconciler

Embedding of `poll_feed` and `_extract_full_text`.  A feed entry carries the
fields `poll_feed` reads: `entry.id` (the guid), title, link, summary,
parsed publication time (abstracted to a tick), optional author, and the raw
full-content blocks that feedparser exposes (`entry.content` values /
`content:encoded`, collapsed here into one list of raw strings).

The HTTP fetch is externalized as `Option (List FeedEntry)`: `none` for a
non-200 response or a transport exception — both `return` before touching the
store — and `some entries` for a parsed feed.  The `generate_hashtags` call
made for each new article reads the trending cache and the generation
service; its cache read is the `trending` parameter and the per-entry
generation response the `ai_response` parameter, wired into
`generate_hashtags_with_trending` exactly as `generate_hashtags` does
(`section=None`, cleaned title and description).

The SQLite autoincrement id is assigned at insert from `next_id`.  Within
one run the existence check sees rows added earlier in the same loop
(SQLAlchemy autoflush), which the fold reproduces. -/

structure FeedEntry where
  guid : String
  title : String
  link : String
  summary : String
  published : Nat
  author : Option String
  content_blocks : List String
  deriving DecidableEq, Repr

/-- `rss_monitor._extract_full_text(entry)`: collect the truthy raw content
blocks; none present means `""`, otherwise join them with single spaces and
normalize the result with `_clean_text`. -/
def extract_full_text (e : FeedEntry) : String :=
  let raw_blocks := e.content_blocks.filter (fun b => b ≠ "")
  if raw_blocks = [] then ""
  else clean_text (String.intercalate " " raw_blocks)

/-- The `Article(...)` constructed by `poll_feed` for a new feed entry:
cleaned title and summary, full-text length (0 when no full text), freshly
generated hashtags stored comma-joined (`None` when the list is empty —
unreachable, the seed tags are always present), no teaser yet, and the
schema defaults `status="pending"`, `visibility="private"`. -/
def make_article (trending : List TrendTag) (response : Option String)
    (id : Nat) (e : FeedEntry) : Article :=
  let clean_description := clean_text e.summary
  let clean_title := clean_text e.title
  let full_text := extract_full_text e
  let hashtags := generate_hashtags_with_trending response none
    (some clean_title) (some clean_description) trending
  { id := id
    guid := e.guid
    title := clean_title
    link := e.link
    pub_date := e.published
    description := clean_description
    author := e.author
    ai_teaser := none
    article_length := some (if full_text ≠ "" then full_text.length else 0)
    suggested_hashtags :=
      if hashtags = [] then none else some (String.intercalate "," hashtags)
    status := "pending"
    visibility := "private" }

/-- The insertion loop of `poll_feed`: walk the fetched entries in order,
skip those whose guid already has a row (including rows added earlier in the
same run), insert a fresh `pending` article for the rest. -/
def insert_new_entries (trending : List TrendTag)
    (ai_response : FeedEntry → Option String) :
    PipelineDB → List FeedEntry → PipelineDB
  | db, [] => db
  | db, e :: rest =>
    if (db.articles.find? (fun a => a.guid = e.guid)).isSome then
      insert_new_entries trending ai_response db rest
    else
      insert_new_entries trending ai_response
        { db with
            articles := db.articles ++ [make_article trending (ai_response e) db.next_id e]
            next_id := db.next_id + 1 }
        rest

/-- `rss_monitor.poll_feed()`: a failed fetch changes nothing; a successful
fetch first deletes, in one batch, every persisted article whose guid is not
among the fetched guids — with no look at its status — and then runs the
insertion loop over the fetched entries against the already-pruned store. -/
def poll_feed (fetch_result : Option (List FeedEntry)) (trending : List TrendTag)
    (ai_response : FeedEntry → Option String) (db : PipelineDB) : PipelineDB :=
  match fetch_result with
  | none => db
  | some entries =>
    insert_new_entries trending ai_response
      { db with
          articles := db.articles.filter (fun a => entries.any (fun e => a.guid = e.guid)) }
      entries

lemma insert_new_entries_mem_mono (trending : List TrendTag)
    (ai_response : FeedEntry → Option String) (entries : List FeedEntry) :
    ∀ (db : PipelineDB) (a : Article), a ∈ db.articles →
      a ∈ (insert_new_entries trending ai_response db entries).articles := by
  induction entries with
  | nil =>
    intro db a h
    simpa [insert_new_entries] using h
  | cons e rest ih =>
    intro db a h
    rw [insert_new_entries]
    split
    · exact ih db a h
    · exact ih _ a (by simp [h])

lemma insert_new_entries_mem (trending : List TrendTag)
    (ai_response : FeedEntry → Option String) (entries : List FeedEntry) :
    ∀ (db : PipelineDB) (x : Article),
      x ∈ (insert_new_entries trending ai_response db entries).articles →
      x ∈ db.articles ∨
        (x.guid ∈ entries.map FeedEntry.guid ∧ x.status = "pending" ∧
          x.ai_teaser = none) := by
  induction entries with
  | nil =>
    intro db x hx
    rw [insert_new_entries] at hx
    exact Or.inl hx
  | cons e rest ih =>
    intro db x hx
    rw [insert_new_entries] at hx
    split at hx
    · rcases ih db x hx with h1 | ⟨h2, h3⟩
      · exact Or.inl h1
      · exact Or.inr ⟨List.mem_cons_of_mem _ h2, h3⟩
    · rcases ih _ x hx with h1 | ⟨h2, h3⟩
      · rcases List.mem_append.mp h1 with h4 | h5
        · exact Or.inl h4
        · have hx5 : x = make_article trending (ai_response e) db.next_id e := by
            simpa using h5
        
          subst hx5
          exact Or.inr ⟨by simp [make_article], by simp [make_article], by simp [make_article]⟩
      · exact Or.inr ⟨List.mem_cons_of_mem _ h2, h3⟩

/-- Claim C4: in a reconciliation run over a successfully fetched feed, every
persisted article whose guid is absent from the feed is gone afterwards — no
matter its status — while every persisted article whose guid is present
survives unchanged; the deletions all happen in the pruning pass that
precedes insertion, so everything else in the resulting store is a freshly
inserted `pending` article (with no teaser) for a fetched guid. -/
theorem c4_reconcile_unconditional_delete (entries : List FeedEntry)
    (trending : List TrendTag) (ai_response : FeedEntry → Option String)
    (db : PipelineDB) :
    (∀ a ∈ db.articles, a.guid ∉ entries.map FeedEntry.guid →
      a ∉ (poll_feed (some entries) trending ai_response db).articles) ∧
    (∀ a ∈ db.articles, a.guid ∈ entries.map FeedEntry.guid →
      a ∈ (poll_feed (some entries) trending ai_response db).articles) ∧
    (∀ x ∈ (poll_feed (some entries) trending ai_response db).articles,
      x ∈ db.articles ∨
        (x.guid ∈ entries.map FeedEntry.guid ∧ x.status = "pending" ∧
          x.ai_teaser = none)) := by
  refine ⟨?_, ?_, ?_⟩
  · intro a _ hguid hmem
    rw [poll_feed] at hmem
    rcases insert_new_entries_mem trending ai_response entries _ a hmem with h1 | ⟨h2, _⟩
    · rcases List.mem_filter.mp h1 with ⟨-, hany⟩
      rcases List.any_eq_true.mp hany with ⟨e, he, heq⟩
      have heq2 : a.guid = e.guid := by simpa using heq
      exact hguid (List.mem_map.mpr ⟨e, he, heq2.symm⟩)
    · exact hguid h2
  · intro a hmem hguid
    rw [poll_feed]
    refine insert_new_entries_mem_mono trending ai_response entries _ a ?_
    refine List.mem_filter.mpr ⟨hmem, ?_⟩
    rcases List.mem_map.mp hguid with ⟨e, he, heq⟩
    exact List.any_eq_true.mpr ⟨e, he, by simp [heq]⟩
  · intro x hx
    rw [poll_feed] at hx
    rcases insert_new_entries_mem trending ai_response entries _ x hx with h1 | h2
    · exact Or.inl (List.mem_filter.mp h1).1
    · exact Or.inr h2

/-- A feed entry re-listing guid `"1"`, for the C4 witness. -/
def entry_one : FeedEntry :=
  { guid := "1", title := "A", link := "http://x/a", summary := "S",
    published := 0, author := none, content_blocks := [] }

/-- A persisted article with guid `"1"`, present in the witness feed. -/
def article_one : Article := { sample_article with id := 6, guid := "1" }

/-- A persisted, already-posted article with guid `"3"`, absent from the
witness feed. -/
def posted_three : Article :=
  { sample_article with id := 7, guid := "3", status := "posted" }

/-- Claim C4 witness: the spec scenario — store holds A(guid 1) and the
posted C(guid 3), the feed returns only A; after the run C is gone even
though it was posted, and A survives. -/
theorem c4_reconcile_unconditional_delete_witness :
    posted_three ∉
      (poll_feed (some [entry_one]) [] (fun _ => none)
        ⟨[article_one, posted_three], [], 8⟩).articles ∧
    article_one ∈
      (poll_feed (some [entry_one]) [] (fun _ => none)
        ⟨[article_one, posted_three], [], 8⟩).articles :=
  ⟨(c4_reconcile_unconditional_delete [entry_one] [] (fun _ => none)
      ⟨[article_one, posted_three], [], 8⟩).1 posted_three (by decide) (by decide),
   (c4_reconcile_unconditional_delete [entry_one] [] (fun _ => none)
      ⟨[article_one, posted_three], [], 8⟩).2.1 article_one (by decide) (by decide)⟩

/-- Claim C7 witness: the validation law's example instance — candidate list
`[{name := "Climate"}]` and model response `"climate"` produce the
original-cased `"#Climate"` after the seed tags. -/
theorem c7_trending_tags_validated_witness :
    generate_hashtags_with_trending (some "climate") none (some "T") (some "D")
      [⟨"Climate"⟩] = seed_hashtags none ++ ["#Climate"] :=
  (c7_trending_tags_validated (some "climate") none (some "T") (some "D")
    [⟨"Climate"⟩]).2
